import Mathlib

/-!
Verification of the howdou knowledge-resolution pipeline (src/howdou/howdou.py)
against its natural-language specification.

Modelling conventions:
* Python module-level pure functions become Lean functions of the same name.
* The on-disk state (parsed knowledge-base files, file modification times,
  the sentinel timestamp file, the content-hash ledger directory and the
  external search index) is modelled as an explicit `KBState` record built
  from association lists, threaded through the stateful methods.
* The SHA-512 digest `get_text_hash` is treated as an abstract function
  parameter `hash : String → String`; none of the verified properties
  depend on properties of the digest itself.
* Real-valued relevance scores and weights are modelled as integers: the
  verified claims only ever compare them, never do float arithmetic.
* Fallible paths return `Except`/`Option` mirroring Python exceptions and
  falsy returns.
-/

namespace Howdou

/-- Association-list lookup, modelling a key→value store (a directory of
files, or a parsed mapping). First binding wins, as with a file system. -/
def alookup {α : Type} : List (String × α) → String → Option α
  | [], _ => none
  | (k, v) :: rest, key => if k = key then some v else alookup rest key

/-- Association-list overwrite (last write wins, one binding per key). -/
def aupsert {α : Type} : List (String × α) → String → α → List (String × α)
  | [], key, val => [(key, val)]
  | (k, v) :: rest, key, val =>
      if k = key then (key, val) :: rest else (k, v) :: aupsert rest key val

/-- Python list indexing `l[i]`: negative indices count from the end. -/
def pyIdx {α : Type} (l : List α) (i : Int) : Option α :=
  if i < 0 then l[((l.length : Int) + i).toNat]? else l[i.toNat]?

/-- Character-list prefix test (pattern, text). -/
def strMatchesAt : List Char → List Char → Bool
  | [], _ => true
  | _ :: _, [] => false
  | p :: ps, c :: cs => p = c && strMatchesAt ps cs

/-- After the literal `questions/`, the regex `\d+/` demands one or more
digits followed by a slash. -/
def digitsSlash : List Char → Bool
  | [] => false
  | c :: rest => c.isDigit && digitsSlashTail rest
where
  digitsSlashTail : List Char → Bool
    | [] => false
    | c :: rest => if c = '/' then true else c.isDigit && digitsSlashTail rest

/-- Does the pattern `questions/\d+/` match starting at this position? -/
def questionMatchAt (cs : List Char) : Bool :=
  strMatchesAt "questions/".toList cs && digitsSlash (cs.drop 10)

/-- Unanchored search for `questions/\d+/`, as `re.search` does. -/
def searchQuestion : List Char → Bool
  | [] => questionMatchAt []
  | c :: rest => questionMatchAt (c :: rest) || searchQuestion rest

/-- `is_question` from `get_link_at_pos`: `re.search(r'questions/\d+/', link)`. -/
def is_question (link : String) : Bool :=
  searchQuestion link.toList

/-- `get_link_at_pos(links, position)`: keep only question-thread links, then
pick the 1-based `position`-th one, falling back to `links[-1]` when the
filtered list is shorter than `position`; returns `False` (here `none`) when
no question link remains. -/
def get_link_at_pos (links : List String) (position : Int) : Option String :=
  let links := links.filter is_question
  if links = [] then none
  else if (links.length : Int) ≥ position then pyIdx links (position - 1)
  else pyIdx links (-1)

/-- One `answers` element of a knowledge-base entry. `date none` models a
missing `date` key (Python raises `KeyError`); `dateOk` models whether
`dateutil.parser.parse` accepts the date string (the parser itself is an
external collaborator). A YAML-null `source` is conflated with a missing
key: the code reads it with `answer.get('source', '')` and only ever
strips the result. Weights are modelled as integers (see header note). -/
structure AnswerRec where
  text : String
  weight : Int := 1
  date : Option String := some "2014-2-22"
  dateOk : Bool := true
  source : Option String := none
  actionSubject : Option String := none
deriving DecidableEq, Repr

/-- A normal (non-include) knowledge-base record; `none` fields model
missing YAML keys (`item.get('questions')` / `item['answers']`). -/
structure Entry where
  questions : Option (List String) := none
  answers : Option (List AnswerRec) := none
deriving DecidableEq, Repr

/-- One item of a parsed knowledge-base file: either an include directive
or a normal entry. -/
inductive KBItem where
  | include_ (fn : String)
  | entry (e : Entry)
deriving DecidableEq, Repr

/-- The document `index_kb` pushes into the external search index
(the `doc` dict, minus the id it is keyed by). -/
structure Doc where
  questions : String
  answer : String
  source : String
  filename : String
  text : String
  actionSubject : Option String
  timestamp : Option String
  weight : Int
deriving DecidableEq, Repr

/-- The on-disk and external state the pipeline touches: parsed
knowledge-base files keyed by filename, their modification times, the
sentinel timestamp file (`none` = the file does not exist), the
content-hash ledger (one file per question-hash inside the app data
directory) and the external search index (documents keyed by id). -/
structure KBState where
  kbFiles : List (String × List KBItem)
  mtime : List (String × Nat)
  sentinel : Option Nat
  ledger : List (String × String)
  index : List (String × Doc)
deriving DecidableEq, Repr

/-- `mark_indexed(question_str, answer_str)`: write `hash(answer)` into the
ledger file named `hash(question)` (overwrite semantics). The SHA-512
digest is the abstract `hash` parameter. -/
def mark_indexed (hash : String → String) (ledger : List (String × String))
    (question_str answer_str : String) : List (String × String) :=
  aupsert ledger (hash question_str) (hash answer_str)

/-- `is_indexed(question_str, answer_str)`: true iff the ledger file named
`hash(question)` exists and its contents equal `hash(answer)`. -/
def is_indexed (hash : String → String) (ledger : List (String × String))
    (question_str answer_str : String) : Bool :=
  match alookup ledger (hash question_str) with
  | none => false
  | some contents => contents = hash answer_str

/-- The parsed items of one knowledge-base file. A file whose YAML document
is empty (`yaml.load` returns `None`, iterating it raises the caught
`TypeError`) contributes no items, matching the `getD []` here. -/
def itemsOf (st : KBState) (fn : String) : List KBItem :=
  (alookup st.kbFiles fn).getD []

/-- The Python exceptions the indexing path can raise: a YAML scanner
error during the initial count (`sys.exit(1)`), a missing dict key
(`KeyError`, uncaught), an unparseable answer date
(`raise Exception('Invalid date: ...')`), and the `TypeError` from
`os.path.getmtime` applied to a non-path value (uncaught). -/
inductive IndexError where
  | scannerError
  | keyError
  | dateError
  | typeError
deriving DecidableEq, Repr

/-- One value yielded by `iter_kb(only_filenames=True)`: either a filename
string, or a normal entry dict — the generator's `else` branch yields
every normal entry regardless of mode. -/
inductive FilenameYield where
  | file (fn : String)
  | entryDict (e : Entry)
deriving DecidableEq, Repr

/-- `iter_kb(only_filenames=True)`: yields the root knowledge-base
filename, then walks the items of the ROOT file only: an include directive
contributes its target filename (no recursion into the included file, so
nested includes are never yielded), while a normal entry dict is yielded
as-is (the `else` branch runs in this mode too, after tagging the entry
with `item['filename']`). -/
def iter_kb_filenames (st : KBState) (root : String) : List FilenameYield :=
  .file root :: (itemsOf st root).map fun item =>
    match item with
    | .include_ fn => .file fn
    | .entry e => .entryDict e

/-- Is this yielded value a filename (as opposed to an entry dict)? -/
def isFileYield : FilenameYield → Bool
  | .file _ => true
  | .entryDict _ => false

/-- The filenames yielded strictly before the first entry dict — the only
values the staleness sweep can inspect without raising. -/
def preEntryFiles (ys : List FilenameYield) : List String :=
  (ys.takeWhile isFileYield).filterMap fun y =>
    match y with
    | .file fn => some fn
    | .entryDict _ => none

/-- Does the yielded list contain an entry dict at all? -/
def hasEntryYield (ys : List FilenameYield) : Bool :=
  ys.any fun y => !isFileYield y

/-- `iter_kb()` (entry mode, with recursion fuel standing in for Python's
unbounded recursion, which diverges on include cycles): recursively expands
include directives and yields each normal entry tagged with the filename it
physically came from (`item['filename'] = fn`). -/
def iter_kb_items (fuel : Nat) (st : KBState) (fn : String) : List (String × Entry) :=
  match fuel with
  | 0 => []
  | fuel + 1 =>
    (itemsOf st fn).flatMap fun item =>
      match item with
      | .include_ g => iter_kb_items fuel st g
      | .entry e => [(fn, e)]

/-- Modification time of a file (files consulted by the staleness check are
assumed to exist; a missing file would raise an uncaught `OSError`). -/
def mtimeOf (st : KBState) (fn : String) : Nat :=
  (alookup st.mtime fn).getD 0

/-- The loop of `is_kb_updated` over the (already materialised) yielded
values, in order: `os.path.getmtime` on a filename compares it against the
sentinel (strictly newer → return True, stop), while `os.path.getmtime` on
an entry dict raises an uncaught `TypeError` — the `except TypeError`
inside `iter_kb` cannot catch it, since `list(...)` has already run the
generator to completion. -/
def mtimeSweep (st : KBState) (ts : Nat) :
    List FilenameYield → Except IndexError Bool
  | [] => .ok false
  | .file fn :: rest =>
    if ts < mtimeOf st fn then .ok true else mtimeSweep st ts rest
  | .entryDict _ :: _ => .error .typeError

/-- `is_kb_updated()`: True when the sentinel timestamp file does not
exist; otherwise sweep the values `iter_kb(only_filenames=True)` yielded,
returning True at the first file strictly newer than the sentinel, raising
`TypeError` at the first entry dict, and returning False when the sweep
ends. -/
def is_kb_updated (st : KBState) (root : String) : Except IndexError Bool :=
  match st.sentinel with
  | none => .ok true
  | some ts => mtimeSweep st ts (iter_kb_filenames st root)

/-- The spec's notion of the files the staleness check covers, stated from
the spec's words for comparison with `is_kb_updated`: the root plus every
TRANSITIVELY included file, nested includes inside included files included. -/
def specReachableFiles (fuel : Nat) (st : KBState) (fn : String) : List String :=
  match fuel with
  | 0 => [fn]
  | fuel + 1 =>
    fn :: (itemsOf st fn).flatMap fun item =>
      match item with
      | .include_ g => specReachableFiles fuel st g
      | .entry _ => []

/-- The staleness predicate exactly as the spec words it: sentinel missing,
or some transitively reachable file modified strictly after the sentinel. -/
def specIsStale (fuel : Nat) (st : KBState) (root : String) : Bool :=
  match st.sentinel with
  | none => true
  | some ts => (specReachableFiles fuel st root).any fun fn => ts < mtimeOf st fn

/-- The knobs `index_kb` reads: the root knowledge-base filename and the
`--force` flag. -/
structure IndexCfg where
  root : String
  force : Bool
deriving DecidableEq, Repr

/-- Accumulator of the indexing sweep: current state, the upserts issued so
far (in order), and the running count of answers processed. -/
abbrev IndexAcc := KBState × List (String × Doc) × Nat

/-- The body of the per-answer loop of `index_kb`: bump the count, skip when
the ledger already records this question/answer pair (unless forced),
otherwise check the date, upsert the document keyed by the content hash of
`questions + " " + text`, and record the pair in the ledger. -/
def processAnswer (hash : String → String) (cfg : IndexCfg)
    (questions filename : String) (acc : IndexAcc) (a : AnswerRec) :
    Except IndexError IndexAcc :=
  let st := acc.1
  let ups := acc.2.1
  let count := acc.2.2 + 1
  if !cfg.force && is_indexed hash st.ledger questions a.text then
    .ok (st, ups, count)
  else
    match a.date with
    | none => .error .keyError
    | some dt =>
      if !a.dateOk then .error .dateError
      else
        let text := questions ++ " " ++ a.text
        let docId := hash text
        let doc : Doc :=
          { questions := questions
            answer := a.text
            source := a.source.getD ""
            filename := filename
            text := text
            actionSubject := a.actionSubject
            timestamp := some dt
            weight := a.weight }
        .ok ({ st with
                index := aupsert st.index docId doc
                ledger := mark_indexed hash st.ledger questions a.text },
             ups ++ [(docId, doc)], count)

/-- The per-answer loop over one entry's answers. -/
def processAnswers (hash : String → String) (cfg : IndexCfg)
    (questions filename : String) :
    IndexAcc → List AnswerRec → Except IndexError IndexAcc
  | acc, [] => .ok acc
  | acc, a :: rest =>
    match processAnswer hash cfg questions filename acc a with
    | .error e => .error e
    | .ok acc' => processAnswers hash cfg questions filename acc' rest

/-- The body of the per-entry loop of `index_kb`: join the entry's question
list into one newline-separated blob; when the blob is empty the entry is
skipped with a console note (`Skipping due to missing questions.`); a
missing `answers` key then raises `KeyError`. -/
def processEntry (hash : String → String) (cfg : IndexCfg) (acc : IndexAcc)
    (fe : String × Entry) : Except IndexError IndexAcc :=
  let questions := "\n".intercalate (fe.2.questions.getD [])
  if questions = "" then .ok acc
  else
    match fe.2.answers with
    | none => .error .keyError
    | some answers => processAnswers hash cfg questions fe.1 acc answers

/-- The per-entry loop over the loaded knowledge-base entries. -/
def processEntries (hash : String → String) (cfg : IndexCfg) :
    IndexAcc → List (String × Entry) → Except IndexError IndexAcc
  | acc, [] => .ok acc
  | acc, e :: rest =>
    match processEntry hash cfg acc e with
    | .error err => .error err
    | .ok acc' => processEntries hash cfg acc' rest

/-- Recursion fuel covering every acyclic include chain of the state (the
Python code recurses unboundedly and diverges on include cycles). -/
def indexFuel (st : KBState) : Nat :=
  st.kbFiles.length + 1

/-- The full sweep of `index_kb` once staleness (or `--force`) has been
established: walk the loaded entries, then refresh the index and touch
the sentinel timestamp file (`update_kb_timestamp`), reporting the number
of answers processed. -/
def index_kb_full (hash : String → String) (cfg : IndexCfg) (st : KBState)
    (now : Nat) : Except IndexError (KBState × List (String × Doc) × Nat) :=
  match processEntries hash cfg (st, [], 0) (iter_kb_items (indexFuel st) st cfg.root) with
  | .error e => .error e
  | .ok (st', ups, count) => .ok ({ st' with sentinel := some now }, ups, count)

/-- `index_kb()`: on `--force`, first delete the external index and the
app-dir ledger contents (`delete_index`), then rebuild; otherwise consult
the staleness check — an exception it raises propagates out uncaught — and
return immediately (`No changes detected.`, count 0) when it reports no
changes, else run the full sweep. `now` is the clock value `touch` stamps
onto the sentinel file at the end of a full sweep. -/
def index_kb (hash : String → String) (cfg : IndexCfg) (st : KBState)
    (now : Nat) : Except IndexError (KBState × List (String × Doc) × Nat) :=
  if cfg.force then
    index_kb_full hash cfg { st with index := [], ledger := [] } now
  else
    match is_kb_updated st cfg.root with
    | .error e => .error e
    | .ok false => .ok (st, [], 0)
    | .ok true => index_kb_full hash cfg st now

end Howdou

namespace Howdou

/-- A one-entry knowledge base used to instantiate C2. -/
def stW : KBState :=
  { kbFiles := [("kb.yml",
      [.entry { questions := some ["q"]
                answers := some [{ text := "a" }] }])]
    mtime := [("kb.yml", 3)]
    sentinel := none
    ledger := []
    index := [] }

/-- The document the first reindex of `stW` upserts. -/
def docW : Doc :=
  { questions := "q"
    answer := "a"
    source := ""
    filename := "kb.yml"
    text := "q a"
    actionSubject := none
    timestamp := some "2014-2-22"
    weight := 1 }

/-- The state after the first reindex of `stW` at clock 5: one ledger
record, one indexed document, sentinel stamped. -/
def stW1 : KBState :=
  { kbFiles := stW.kbFiles
    mtime := stW.mtime
    sentinel := some 5
    ledger := [("q", "a")]
    index := [("q a", docW)] }

/-- C2 (code bug evaluation): on the concrete knowledge base `stW` (with
the identity digest), the first non-forced reindex at clock 5 succeeds
with one upsert and stamps the sentinel; the second call — the claim's
no-op — then sweeps the values `iter_kb(only_filenames=True)` yielded,
finds the root not newer than the sentinel, reaches the entry dict the
generator also yielded, and aborts with the uncaught `TypeError` from
`os.path.getmtime`, instead of observing no staleness and returning 0. -/
theorem C2_second_reindex_typeerror :
    index_kb id { root := "kb.yml", force := false } stW 5
        = .ok (stW1, [("q a", docW)], 1) ∧
    index_kb id { root := "kb.yml", force := false } stW1 9
        = .error .typeError :=
  ⟨rfl, rfl⟩

/-- A knowledge base whose first entry has no `questions` key at all (and
one answer), followed by a well-formed entry. -/
def stC8 : KBState :=
  { kbFiles := [("kb.yml",
      [.entry { questions := none, answers := some [{ text := "orphan" }] },
       .entry { questions := some ["q"], answers := some [{ text := "a" }] }])]
    mtime := [("kb.yml", 3)]
    sentinel := none
    ledger := []
    index := [] }

/-- The state after reindexing `stC8`: only the well-formed entry's
document was indexed; the violating entry left no trace. -/
def stC8f : KBState :=
  { kbFiles := stC8.kbFiles
    mtime := stC8.mtime
    sentinel := some 5
    ledger := [("q", "a")]
    index := [("q a", docW)] }

/-- C8 counterexample: an entry with no question strings is NOT rejected as
a load-time validation failure — the loader yields it like any other entry,
and indexing completes successfully (`Except.ok`, one upsert for the
well-formed entry), silently skipping the violating one. -/
theorem C8_counterexample :
    iter_kb_items (indexFuel stC8) stC8 "kb.yml"
      = [("kb.yml", { questions := none, answers := some [{ text := "orphan" }] }),
         ("kb.yml", { questions := some ["q"], answers := some [{ text := "a" }] })] ∧
    index_kb id { root := "kb.yml", force := false } stC8 5
      = .ok (stC8f, [("q a", docW)], 1) :=
  ⟨rfl, rfl⟩

/-- C8 amended: there is no load-time validation of entries. During
indexing, an entry whose joined question blob is empty (missing `questions`
key, empty list, or only empty strings) is skipped with a console note and
processing continues; an entry with a non-empty question blob but a missing
`answers` key aborts indexing with an untyped `KeyError`. -/
theorem C8_skip_or_keyerror (hash : String → String) (cfg : IndexCfg)
    (acc : IndexAcc) (fn : String) (e : Entry) :
    ("\n".intercalate (e.questions.getD []) = "" →
      processEntry hash cfg acc (fn, e) = .ok acc) ∧
    ("\n".intercalate (e.questions.getD []) ≠ "" → e.answers = none →
      processEntry hash cfg acc (fn, e) = .error .keyError) := by
  constructor
  · intro hq
    unfold processEntry
    simp [hq]
  · intro hq hans
    unfold processEntry
    simp [hq, hans]

/-- Witness for C8's amended statement: a questionless entry is skipped
(state returned untouched) and an answerless entry raises `KeyError`. -/
theorem C8_witness :
    processEntry id { root := "kb.yml", force := false } (stC8, [], 0)
        ("kb.yml", { questions := none, answers := some [{ text := "orphan" }] })
      = .ok (stC8, [], 0) ∧
    processEntry id { root := "kb.yml", force := false } (stC8, [], 0)
        ("kb.yml", { questions := some ["q"], answers := none })
      = .error .keyError := by
  constructor
  · exact (C8_skip_or_keyerror id { root := "kb.yml", force := false } (stC8, [], 0)
      "kb.yml" { questions := none, answers := some [{ text := "orphan" }] }).1 rfl
  · exact (C8_skip_or_keyerror id { root := "kb.yml", force := false } (stC8, [], 0)
      "kb.yml" { questions := some ["q"], answers := none }).2 (by decide) rfl

/-- The `location` tag of an assembled answer (the `LOCAL`/`REMOTE`
module constants). -/
inductive Location where
  | localKB
  | remote
deriving DecidableEq, Repr

/-- One hit of the external search engine's response
(`results['hits']['hits'][k]`): its weight-adjusted relevance score
(`_score`, already post-multiplied by the stored `weight` through the
function-score script) and the stored `_source` fields the code reads. -/
structure Hit where
  score : Int
  answer : String
  source : Option String
  filename : String
  text : String
  weight : Int
deriving DecidableEq, Repr

/-- The `answer_data` dict assembled per surviving hit or remote answer.
`Option` fields model Python `None`. -/
structure AnswerData where
  answer : Option String
  score : Int
  source : Option String
  filename : Option String
  text : Option String
  weight : Int
  location : Location
deriving DecidableEq, Repr

/-- The query-path knobs `run_query`/`get_local_answers` read. `query` is
`self.query` as `__init__` left it. -/
structure QueryCfg where
  query : String
  num_answers : Nat
  min_score : Int
  ignore_local : Bool
  ignore_remote : Bool
  pos : Int
  link : Bool
  show_score : Bool
  show_source : Bool
  kb_filename : String := "kb.yml"
deriving DecidableEq, Repr

/-- Python `str.strip()`: drop leading and trailing whitespace. -/
def pyStrip (s : String) : String :=
  String.mk (((s.data.dropWhile Char.isWhitespace).reverse.dropWhile
    Char.isWhitespace).reverse)

/-- `(source or '').strip() or None`. -/
def pyStripOrNone (s : Option String) : Option String :=
  let t := pyStrip (s.getD "")
  if t = "" then none else some t

/-- The `answer_data` built from one local hit. -/
def hitToAnswerData (hit : Hit) : AnswerData :=
  { answer := some (pyStrip hit.answer)
    score := hit.score
    source := pyStripOrNone hit.source
    filename := some hit.filename
    text := some hit.text
    weight := hit.weight
    location := .localKB }

/-- The per-hit loop of `get_local_answers`: a hit is dropped exactly when
`min_score >= 0 and score < min_score`; the rest are appended in order. -/
def processHits (cfg : QueryCfg) (hits : List Hit) : List AnswerData :=
  hits.filterMap fun hit =>
    if 0 ≤ cfg.min_score ∧ hit.score < cfg.min_score then none
    else some (hitToAnswerData hit)

/-- The two query phases `get_local_answers` may issue against the index:
`exact=True` (AND operator, boost 5) then `exact=False` (OR, boost 1). -/
inductive SearchPhase where
  | strict
  | relaxed
deriving DecidableEq, Repr

/-- `get_local_answers`: run the strict phase; its hits (truncated to
`num_answers`) feed the per-hit loop; the relaxed phase runs only when the
strict phase reported zero total hits (`if total: break`). Besides the
accumulated answers, the executed phases are reported, mirroring the
searches actually sent to the engine. -/
def get_local_answers (cfg : QueryCfg) (andHits orHits : List Hit) :
    List AnswerData × List SearchPhase :=
  let total1 := andHits.length
  let hits1 := andHits.take cfg.num_answers
  let answers1 := if hits1.isEmpty then [] else processHits cfg hits1
  if total1 ≠ 0 then (answers1, [.strict])
  else
    let hits2 := orHits.take cfg.num_answers
    let answers2 := if hits2.isEmpty then answers1 else answers1 ++ processHits cfg hits2
    (answers2, [.strict, .relaxed])

end Howdou

namespace Howdou

/-- Guarding the per-hit loop by `if hits:` changes nothing: the loop over
an empty hit list appends nothing. -/
theorem if_isEmpty_processHits (cfg : QueryCfg) (hits : List Hit) :
    (if hits.isEmpty then ([] : List AnswerData) else processHits cfg hits)
      = processHits cfg hits := by
  cases hits with
  | nil => rfl
  | cons h t => rfl

/-- Closed form of `get_local_answers`: the answers come from exactly one
phase — the strict one when it has any hit, the relaxed one otherwise —
and the relaxed search is issued only in the latter case. -/
theorem get_local_answers_eq (cfg : QueryCfg) (andHits orHits : List Hit) :
    get_local_answers cfg andHits orHits
      = (processHits cfg ((if andHits.isEmpty then orHits else andHits).take cfg.num_answers),
         if andHits.isEmpty then [.strict, .relaxed] else [.strict]) := by
  unfold get_local_answers
  cases andHits with
  | nil =>
    simp only [List.isEmpty_nil, List.length_nil, ne_eq, not_true_eq_false, if_false,
      if_true, List.take_nil, List.isEmpty_nil, ite_true]
    cases htake : List.take cfg.num_answers orHits with
    | nil => simp [processHits]
    | cons h t => simp
  | cons h t =>
    simp only [List.isEmpty_cons, List.length_cons, ne_eq, Nat.succ_ne_zero,
      not_false_eq_true, if_true, Bool.false_eq_true, if_false]
    rw [if_isEmpty_processHits]

/-- C1: the relaxed (OR) phase is executed only when the strict (AND)
phase returned zero hits, and the returned result set is exactly the
processed result set of whichever phase first yielded at least one hit —
results of the two phases are never merged. -/
theorem C1_phase_fallback (cfg : QueryCfg) (andHits orHits : List Hit) :
    (andHits ≠ [] →
      get_local_answers cfg andHits orHits
        = (processHits cfg (andHits.take cfg.num_answers), [.strict])) ∧
    (andHits = [] →
      get_local_answers cfg andHits orHits
        = (processHits cfg (orHits.take cfg.num_answers), [.strict, .relaxed])) := by
  constructor
  · intro hne
    rw [get_local_answers_eq]
    have h : andHits.isEmpty = false := by
      cases andHits with
      | nil => exact absurd rfl hne
      | cons h t => rfl
    simp [h]
  · intro heq
    subst heq
    rw [get_local_answers_eq]
    simp

/-- Sample hits used to instantiate C1 and C9. -/
def hitHigh : Hit :=
  { score := 3, answer := "A", source := none, filename := "kb.yml",
    text := "q A", weight := 1 }

/-- A low-scoring sample hit. -/
def hitLow : Hit :=
  { score := 1, answer := "B", source := some "someurl",
    filename := "kb.yml", text := "q B", weight := 2 }

/-- A query configuration with no score floor. -/
def cfgNoFloor : QueryCfg :=
  { query := "q", num_answers := 2, min_score := -1, ignore_local := false,
    ignore_remote := false, pos := 1, link := false, show_score := false,
    show_source := true }

/-- The same configuration with a score floor of 2. -/
def cfgFloor2 : QueryCfg :=
  { cfgNoFloor with min_score := 2 }

/-- Witness for C1: with a non-empty strict phase only the strict results
come back; with an empty strict phase exactly the relaxed results come
back, and only then is the relaxed search issued. -/
theorem C1_witness :
    get_local_answers cfgNoFloor [hitHigh] [hitLow]
      = ([hitToAnswerData hitHigh], [.strict]) ∧
    get_local_answers cfgNoFloor [] [hitLow]
      = ([hitToAnswerData hitLow], [.strict, .relaxed]) := by
  constructor
  · exact ((C1_phase_fallback cfgNoFloor [hitHigh] [hitLow]).1 (by decide)).trans rfl
  · exact ((C1_phase_fallback cfgNoFloor [] [hitLow]).2 rfl).trans rfl

/-- C9: with `min_score ≥ 0`, every hit whose weight-adjusted score is
strictly below `min_score` is excluded (every returned answer scores at
least `min_score`); with negative `min_score` no hit is excluded on score
grounds (the terminal phase's truncated hits map straight into results);
and in all cases at most `num_answers` results are returned. -/
theorem C9_score_floor_and_truncation (cfg : QueryCfg) (andHits orHits : List Hit) :
    (0 ≤ cfg.min_score →
      ∀ a ∈ (get_local_answers cfg andHits orHits).1, cfg.min_score ≤ a.score) ∧
    (cfg.min_score < 0 →
      (get_local_answers cfg andHits orHits).1
        = ((if andHits.isEmpty then orHits else andHits).take cfg.num_answers).map
            hitToAnswerData) ∧
    (get_local_answers cfg andHits orHits).1.length ≤ cfg.num_answers := by
  rw [get_local_answers_eq]
  refine ⟨?_, ?_, ?_⟩
  · intro hms a ha
    simp only [processHits, List.mem_filterMap] at ha
    obtain ⟨hit, -, hsome⟩ := ha
    by_cases hcond : 0 ≤ cfg.min_score ∧ hit.score < cfg.min_score
    · rw [if_pos hcond] at hsome
      cases hsome
    · rw [if_neg hcond] at hsome
      cases hsome
      have : ¬ hit.score < cfg.min_score := fun hlt => hcond ⟨hms, hlt⟩
      simpa [hitToAnswerData] using not_lt.mp this
  · intro hneg
    have hcond : ¬ 0 ≤ cfg.min_score := by omega
    simp only [processHits, hcond, false_and, if_neg, if_false]
    rw [show (fun hit => some (hitToAnswerData hit)) = some ∘ hitToAnswerData from rfl,
      List.filterMap_eq_map]
  · calc (processHits cfg ((if andHits.isEmpty then orHits else andHits).take cfg.num_answers)).length
        ≤ ((if andHits.isEmpty then orHits else andHits).take cfg.num_answers).length :=
          List.length_filterMap_le _ _
      _ ≤ cfg.num_answers := by
          rw [List.length_take]
          omega

/-- Witness for C9: with floor 2 the low-scoring hit is dropped and every
returned score is at least 2; with floor −1 both hits come back in order;
both runs return at most `num_answers` results. -/
theorem C9_witness :
    (∀ a ∈ (get_local_answers cfgFloor2 [hitHigh, hitLow] []).1, (2 : Int) ≤ a.score) ∧
    (get_local_answers cfgNoFloor [hitHigh, hitLow] []).1
      = ([hitHigh, hitLow].take 2).map hitToAnswerData ∧
    (get_local_answers cfgFloor2 [hitHigh, hitLow] []).1.length ≤ 2 := by
  refine ⟨?_, ?_, ?_⟩
  · exact (C9_score_floor_and_truncation cfgFloor2 [hitHigh, hitLow] []).1 (by decide)
  · exact (C9_score_floor_and_truncation cfgNoFloor [hitHigh, hitLow] []).2.1 (by decide)
  · exact (C9_score_floor_and_truncation cfgFloor2 [hitHigh, hitLow] []).2.2

/-- The fixed sentinel substituted when remote extraction yields `None`. -/
def NO_ANSWER_MSG : String :=
  "< no answer given >"

/-- What `get_answer` returns: `(False, None)` when no question link
survives filtering, `(None, link)` in `--link` mode, `(text, link)`
otherwise. -/
inductive GetAnswerResult where
  | noLink
  | linkOnly (link : String)
  | answer (text : String) (link : String)
deriving DecidableEq, Repr

/-- `get_answer(links)`: select the link at `pos`; in `--link` mode return
it alone; otherwise fetch the page and extract the answer region. The
fetch-and-extract pipeline (tracking-link unwrapping, the votes-sorted
answer tab, pre/code vs. text vs. all-blocks extraction) is abstracted into
`extract`, returning the raw extracted text or `None`; a `None` extraction
is replaced by the `NO_ANSWER_MSG` sentinel, and the result is stripped. -/
def get_answer (pos : Int) (wantLink : Bool) (extract : String → Option String)
    (links : List String) : GetAnswerResult :=
  match get_link_at_pos links pos with
  | none => .noLink
  | some link =>
    if wantLink then .linkOnly link
    else
      let text :=
        match extract link with
        | none => NO_ANSWER_MSG
        | some t => t
      .answer (pyStrip text) link

/-- Python `str(x)` on an optional string: `None` prints as `None`. -/
def pyStr (o : Option String) : String :=
  o.getD "None"

/-- The `ANSWER_HEADER` template,
`--- Answer: i --- Weight: w --- Source: s ---\n\n{answer}`. -/
def ANSWER_HEADER (i : Nat) (weight : Int) (source answer : String) : String :=
  "--- Answer: " ++ toString i ++ " --- Weight: " ++ toString weight ++
  " --- Source: " ++ source ++ " ---\n\n" ++ answer

/-- `self.append_header = self.num_answers > 1 or self.show_score or
self.show_source` (line 635) — computed by `run_query` and never read
again anywhere in the class. -/
def append_header_flag (cfg : QueryCfg) : Bool :=
  decide (cfg.num_answers > 1) || cfg.show_score || cfg.show_source

/-- One block of the assembled output (the loop body of the `if output:`
section): local answers are attributed to their knowledge-base file, remote
ones to their URL; the header's weight figure is the rounded score times
the weight (both already integral here). -/
def format_answer_block (i : Nat) (a : AnswerData) : String :=
  let source := if a.location = .localKB then pyStr a.filename else pyStr a.source
  ANSWER_HEADER (i + 1) (a.score * a.weight) source (pyStr a.answer)

/-- The assembled output string: blocks joined by blank lines, wrapped in
newlines. Note the header is emitted for every answer unconditionally. -/
def format_output_str (answers : List AnswerData) : String :=
  "\n" ++ String.intercalate "\n\n" (answers.enum.map fun p => format_answer_block p.1 p.2)
    ++ "\n"

/-- A colon or dash, the characters `run_query` collapses. -/
def isCD (c : Char) : Bool :=
  c = ':' || c = '-'

/-- The list form of `re.sub(r'[\:\-]+', ' ', query)`: every maximal run of
colons/dashes becomes a single space. `prevCD` records whether the
previous character belonged to such a run (so the run emits one space). -/
def subCDList (prevCD : Bool) : List Char → List Char
  | [] => []
  | c :: rest =>
    if isCD c then
      (if prevCD then [] else [' ']) ++ subCDList true rest
    else c :: subCDList false rest

/-- `re.sub(r'[\:\-]+', ' ', query)` as `run_query` applies it. -/
def subCD (s : String) : String :=
  String.mk (subCDList false s.data)

/-- The `__init__` normalisation of the command-line query words:
`(' '.join(query).replace('?', '')).strip()`. -/
def normalize_query (words : List String) : String :=
  pyStrip (String.mk (((String.intercalate " " words).data).filter fun c => c ≠ '?'))

/-- The externally observable actions the query path can take: acquiring
the inter-process lock, creating the index if absent, issuing one of the
two search phases, the site-scoped web search, and fetching an answer
page. -/
inductive Effect where
  | lock
  | esCreate
  | esSearchStrict
  | esSearchRelaxed
  | netSearch
  | netFetch
deriving DecidableEq, Repr

/-- The effect a search phase issues. -/
def phaseEffect : SearchPhase → Effect
  | .strict => .esSearchStrict
  | .relaxed => .esSearchRelaxed

/-- What `run_query` returns (with `output=True`): `False` when the remote
search produced no links, otherwise the assembled answers and the printed
output string (the Python call returns only the string; the answer list is
exposed alongside it here). -/
inductive RunOutcome where
  | failed
  | ok (answers : List AnswerData) (output : String)
deriving DecidableEq, Repr

/-- The external world a query run interacts with: the hits the two local
search phases would return for the query, the links the site-scoped web
search would return, and the page-extraction outcome per link. -/
structure QueryEnv where
  andHits : List Hit
  orHits : List Hit
  links : List String
  extract : String → Option String

/-- The entry the `KNOWLEDGEBASE_STUB` bootstrap file parses to. -/
def stubEntry : Entry :=
  { questions := some ["how do I create a new howdou knowledge base entry"]
    answers := some [{ text := "nano ~/.howdou.yml\nhowdou --reindex\n" }] }

/-- `init_kb()`: write the stub knowledge base when the file is missing. -/
def init_kb (st : KBState) (root : String) (now : Nat) : KBState :=
  match alookup st.kbFiles root with
  | some _ => st
  | none =>
    { st with
      kbFiles := aupsert st.kbFiles root [.entry stubEntry]
      mtime := aupsert st.mtime root now }

/-- The `answer_data` built from one remote `get_answer` result; a
`(False, None)` result is skipped (`continue`). -/
def remoteAnswerData : GetAnswerResult → Option AnswerData
  | .noLink => none
  | .linkOnly link =>
    some { answer := none, score := 1, source := some link, filename := none,
           text := none, weight := 1, location := .remote }
  | .answer text link =>
    some { answer := some text, score := 1, source := some link, filename := none,
           text := none, weight := 1, location := .remote }

/-- The page fetch an iteration of the remote loop performs: none when no
question link survives, none in `--link` mode. -/
def remoteFetchEffects (cfg : QueryCfg) (links : List String) : List Effect :=
  match get_link_at_pos links cfg.pos with
  | none => []
  | some _ => if cfg.link then [] else [.netFetch]

/-- `run_query(q=None, output=True)`: collapse colons/dashes; an empty
query skips the lock and both search paths entirely (`if query:`) and
still prints the (empty) assembled output. Otherwise, under the
inter-process lock: bootstrap the knowledge base if missing, compute the
(never consulted) `append_header` flag, query the local index unless
disabled, and fall back to the remote resolver only when no local answer
survived and remote is enabled; no surviving remote link at all returns
`False`. The remote loop runs `num_answers` times over the SAME link list
and position. Returns the possibly-updated state, the effect trace, and
the outcome. -/
def runQuery (cfg : QueryCfg) (env : QueryEnv) (st : KBState) (now : Nat) :
    KBState × List Effect × RunOutcome :=
  let query := subCD cfg.query
  if query = "" then
    (st, [], .ok [] (format_output_str []))
  else
    let st1 := init_kb st cfg.kb_filename now
    let localPart :=
      if !cfg.ignore_local then
        let r := get_local_answers cfg env.andHits env.orHits
        (r.1, Effect.esCreate :: r.2.map phaseEffect)
      else ([], [])
    let answers := localPart.1
    if answers.isEmpty && !cfg.ignore_remote then
      if env.links = [] then
        (st1, Effect.lock :: localPart.2 ++ [Effect.netSearch], .failed)
      else
        let res := get_answer cfg.pos cfg.link env.extract env.links
        let iters := List.range cfg.num_answers
        let answers := answers ++ iters.filterMap fun _ => remoteAnswerData res
        (st1,
         Effect.lock :: localPart.2 ++ Effect.netSearch ::
           iters.flatMap fun _ => remoteFetchEffects cfg env.links,
         .ok answers (format_output_str answers))
    else
      (st1, Effect.lock :: localPart.2, .ok answers (format_output_str answers))

/-- A single-answer query with score and source display both switched off
— the claimed "no header" configuration. -/
def cfgC6 : QueryCfg :=
  { query := "q", num_answers := 1, min_score := -1, ignore_local := false,
    ignore_remote := true, pos := 1, link := false, show_score := false,
    show_source := false }

/-- C6 (code bug evaluation): `run_query` computes the
`append_header` flag — false here, since one answer was requested and both
score and source display are off — but the output assembly never consults
it: the per-answer header is prepended unconditionally. -/
theorem C6_header_unconditional :
    append_header_flag cfgC6 = false ∧
    format_output_str [hitToAnswerData hitHigh]
      = "\n--- Answer: 1 --- Weight: 3 --- Source: kb.yml ---\n\nA\n" :=
  ⟨rfl, rfl⟩

/-- An environment in which the local index yields no hit for either
phase, the web search yields no links, and every extraction comes back
empty. -/
def envEmpty : QueryEnv :=
  { andHits := [], orHits := [], links := [], extract := fun _ => none }

/-- The spec's end-to-end scenario: query `format date bash`, local index
empty, remote search disabled. -/
def cfgC7 : QueryCfg :=
  { query := "format date bash", num_answers := 1, min_score := -1,
    ignore_local := false, ignore_remote := true, pos := 1, link := false,
    show_score := false, show_source := true }

/-- C7 counterexample: a query with an empty local index and remote search
disabled produces an empty answer list and the bare output wrapper
`"\n\n"` — NOT the "no answer given" sentinel: that substitution lives
only inside the remote extraction path, which this run never reaches. -/
theorem C7_counterexample :
    (runQuery cfgC7 envEmpty stW 5).2.2 = .ok [] "\n\n" ∧
    ("\n\n" : String) ≠ NO_ANSWER_MSG :=
  ⟨rfl, by decide⟩

/-- C7 amended: when REMOTE answer extraction yields no usable text
(`None`), `get_answer` substitutes the fixed "no answer given" sentinel
rather than an empty string; but a query with an empty local index and
remote search disabled produces an empty answer list and a bare output
string without the sentinel (and without an exception). -/
theorem C7_sentinel_only_in_remote_extraction
    (p : Int) (links : List String) (link : String)
    (extract : String → Option String) (cfg : QueryCfg) (env : QueryEnv)
    (st : KBState) (now : Nat)
    (hlink : get_link_at_pos links p = some link)
    (hnone : extract link = none)
    (hrem : cfg.ignore_remote = true)
    (hloc : cfg.ignore_local = false)
    (hand : env.andHits = [])
    (hor : env.orHits = []) :
    get_answer p false extract links = .answer NO_ANSWER_MSG link ∧
    (runQuery cfg env st now).2.2 = .ok [] (format_output_str []) := by
  constructor
  · unfold get_answer
    rw [hlink]
    simp only [hnone]
    rfl
  · have hlocal : get_local_answers cfg env.andHits env.orHits
        = ([], [.strict, .relaxed]) := by
      rw [hand, hor, get_local_answers_eq]
      simp [processHits]
    unfold runQuery
    by_cases hq : subCD cfg.query = ""
    · simp [hq]
    · simp [hq, hloc, hrem, hlocal]

/-- Witness for C7's amended statement on concrete inputs: a `None`
extraction at the selected link yields the sentinel answer, and the
empty-local remote-disabled run yields no answers and the bare output. -/
theorem C7_witness :
    get_answer 1 false (fun _ => none) ["/questions/42/"]
      = .answer NO_ANSWER_MSG "/questions/42/" ∧
    (runQuery cfgC7 envEmpty stW 5).2.2 = .ok [] (format_output_str []) := by
  have h := C7_sentinel_only_in_remote_extraction 1 ["/questions/42/"]
    "/questions/42/" (fun _ => none) cfgC7 envEmpty stW 5
    rfl rfl rfl rfl rfl rfl
  exact h

/-- A query run whose command-line words normalise to the empty string. -/
def cfgC10 : QueryCfg :=
  { query := "", num_answers := 1, min_score := -1, ignore_local := false,
    ignore_remote := false, pos := 1, link := false, show_score := false,
    show_source := true }

/-- C10: when the command-line query words normalise to the empty string
(join with spaces, remove every question mark, strip whitespace), the
query run acquires no lock, touches neither the local index nor the
network, leaves the state — external index and hash ledger included —
unchanged, and produces an empty answer list (the printed output is the
bare wrapper). -/
theorem C10_empty_query_noop (cfg : QueryCfg) (env : QueryEnv) (st : KBState)
    (now : Nat) (words : List String)
    (hw : cfg.query = normalize_query words)
    (hempty : normalize_query words = "") :
    runQuery cfg env st now = (st, [], .ok [] "\n\n") := by
  have hq : cfg.query = "" := hw.trans hempty
  unfold runQuery
  rw [hq]
  rfl

/-- Witness for C10: the words `?` and `??` normalise to the empty string,
and the run returns the state unchanged, an empty effect trace and an
empty answer list. -/
theorem C10_witness :
    normalize_query ["?", "??"] = "" ∧
    runQuery cfgC10 envEmpty stW 7 = (stW, [], .ok [] "\n\n") :=
  ⟨rfl, C10_empty_query_noop cfgC10 envEmpty stW 7 ["?", "??"] rfl rfl⟩

end Howdou

namespace Howdou

/-- C3: immediately after `mark_indexed q a`, `is_indexed q a` is true; and
`is_indexed q a` is true iff a ledger record exists under `hash q` whose
stored contents equal `hash a` — a missing record or a differing stored
hash makes it false. -/
theorem C3_ledger_roundtrip (hash : String → String)
    (ledger : List (String × String)) (q a : String) :
    is_indexed hash (mark_indexed hash ledger q a) q a = true ∧
    (is_indexed hash ledger q a = true ↔
      alookup ledger (hash q) = some (hash a)) := by
  constructor
  · unfold is_indexed mark_indexed
    have h : alookup (aupsert ledger (hash q) (hash a)) (hash q) = some (hash a) := by
      induction ledger with
      | nil => simp [aupsert, alookup]
      | cons kv rest ih =>
        obtain ⟨k, v⟩ := kv
        by_cases hk : k = hash q
        · simp [aupsert, alookup, hk]
        · simp [aupsert, alookup, hk, ih]
    rw [h]
    simp
  · unfold is_indexed
    cases h : alookup ledger (hash q) with
    | none => simp
    | some c => simp

/-- Witness for C3 at a concrete ledger: instantiates the round-trip and the
characterisation with the identity digest. -/
theorem C3_witness :
    is_indexed id (mark_indexed id [("other", "x")] "q" "a") "q" "a" = true ∧
    (is_indexed id [("other", "x")] "q" "a" = true ↔
      alookup [("other", "x")] (id "q") = some (id "a")) :=
  C3_ledger_roundtrip id [("other", "x")] "q" "a"

/-- A knowledge base whose root includes `a.yml`, which in turn includes
`b.yml`; only `b.yml` was modified (time 10) after the sentinel (time 5). -/
def stC5 : KBState :=
  { kbFiles := [("root.yml", [.include_ "a.yml"]),
                ("a.yml", [.include_ "b.yml"]),
                ("b.yml", [])]
    mtime := [("root.yml", 0), ("a.yml", 0), ("b.yml", 10)]
    sentinel := some 5
    ledger := []
    index := [] }

/-- C5 counterexample: with a nested include (`root.yml` → `a.yml` →
`b.yml`) whose innermost file is newer than the sentinel, the staleness
check returns False, while the claimed "every transitively reachable file"
criterion says stale: the filename sweep does not recurse into included
files. -/
theorem C5_counterexample :
    is_kb_updated stC5 "root.yml" = .ok false ∧
    specIsStale 3 stC5 "root.yml" = true := by
  constructor <;> rfl

/-- What the staleness loop does to a yielded list: True exactly when a
file strictly newer than the sentinel appears before the first entry dict,
and an uncaught `TypeError` when an entry dict is reached first. -/
theorem mtimeSweep_spec (st : KBState) (ts : Nat) :
    ∀ ys : List FilenameYield,
    (mtimeSweep st ts ys = .ok true ↔ ∃ fn ∈ preEntryFiles ys, ts < mtimeOf st fn) ∧
    ((∀ fn ∈ preEntryFiles ys, mtimeOf st fn ≤ ts) → hasEntryYield ys = true →
      mtimeSweep st ts ys = .error .typeError) := by
  intro ys
  induction ys with
  | nil =>
    constructor
    · simp [mtimeSweep, preEntryFiles]
    · intro _ h
      simp [hasEntryYield] at h
  | cons y rest ih =>
    cases y with
    | entryDict e =>
      constructor
      · simp [mtimeSweep, preEntryFiles, List.takeWhile, isFileYield]
      · intro _ _
        rfl
    | file fn =>
      have hpre : preEntryFiles (.file fn :: rest) = fn :: preEntryFiles rest := by
        simp [preEntryFiles, List.takeWhile, isFileYield]
      by_cases hnew : ts < mtimeOf st fn
      · constructor
        · rw [hpre]
          simp only [mtimeSweep, hnew, if_pos, true_iff]
          exact ⟨fn, by simp, hnew⟩
        · intro hall _
          exfalso
          have := hall fn (by rw [hpre]; simp)
          omega
      · have heq : mtimeSweep st ts (.file fn :: rest) = mtimeSweep st ts rest := by
          simp [mtimeSweep, hnew]
        have hent : hasEntryYield (.file fn :: rest) = hasEntryYield rest := by
          simp [hasEntryYield, isFileYield]
        constructor
        · rw [heq, hpre, ih.1]
          constructor
          · rintro ⟨fn', hmem, hlt⟩
            exact ⟨fn', by simp [hmem], hlt⟩
          · rintro ⟨fn', hmem, hlt⟩
            simp only [List.mem_cons] at hmem
            rcases hmem with rfl | hmem
            · omega
            · exact ⟨fn', hmem, hlt⟩
        · intro hall hhas
          rw [heq]
          refine ih.2 ?_ ?_
          · intro fn' h'
            exact hall fn' (by rw [hpre]; simp [h'])
          · rw [← hent]
            exact hhas

/-- C5 amended: the staleness check returns True iff the sentinel timestamp
file does not exist, or a file strictly newer than the sentinel occurs
among the values `iter_kb(only_filenames=True)` yields — the root followed
by the root's own items in order, include items contributing their target
filename (nested includes are never consulted) — BEFORE any normal entry
dict; when the sweep reaches an entry dict first, it raises an uncaught
`TypeError` instead of answering. -/
theorem C5_staleness_characterisation (st : KBState) (root : String) :
    (is_kb_updated st root = .ok true ↔
      st.sentinel = none ∨ ∃ ts, st.sentinel = some ts ∧
        ∃ fn ∈ preEntryFiles (iter_kb_filenames st root), ts < mtimeOf st fn) ∧
    (∀ ts, st.sentinel = some ts →
      (∀ fn ∈ preEntryFiles (iter_kb_filenames st root), mtimeOf st fn ≤ ts) →
      hasEntryYield (iter_kb_filenames st root) = true →
      is_kb_updated st root = .error .typeError) := by
  constructor
  · unfold is_kb_updated
    cases h : st.sentinel with
    | none => simp
    | some ts =>
      rw [(mtimeSweep_spec st ts (iter_kb_filenames st root)).1]
      simp
  · intro ts hts hall hent
    unfold is_kb_updated
    rw [hts]
    exact (mtimeSweep_spec st ts (iter_kb_filenames st root)).2 hall hent

/-- C4: for every candidate-link list and every 1-based position `p ≥ 1`, link
selection filters to links matching the question-thread shape
(`questions/<digits>/`) and returns the p-th remaining link, clamping to the
last remaining link when fewer than `p` remain; with no remaining link the
selection reports failure rather than raising. -/
theorem C4_link_position_clamp (links : List String) (p : Int) (hp : 1 ≤ p) :
    get_link_at_pos links p =
      (if links.filter is_question = [] then none
       else if p ≤ (links.filter is_question).length then
         (links.filter is_question)[(p - 1).toNat]?
       else (links.filter is_question).getLast?) := by
  unfold get_link_at_pos
  set fl := links.filter is_question with hfl
  by_cases h0 : fl = []
  · simp [h0]
  · by_cases hlen : p ≤ (fl.length : Int)
    · have hp1 : ¬ (p - 1 < 0) := by omega
      simp [h0, pyIdx, hlen, ge_iff_le, hp1]
    · have hlast : ((fl.length : Int) + (-1)).toNat = fl.length - 1 := by omega
      simp [h0, pyIdx, hlen, ge_iff_le, hlast, List.getLast?_eq_getElem?]

/-- Witness for C4 at the spec's own examples. -/
theorem C4_witness :
    (1 : Int) ≤ 2 ∧
    get_link_at_pos ["/questions/42/"] 2 = some "/questions/42/" ∧
    get_link_at_pos ["/howdou", "/questions/42/"] 1 = some "/questions/42/" := by
  refine ⟨by norm_num, ?_, ?_⟩
  · have h := C4_link_position_clamp ["/questions/42/"] 2 (by norm_num)
    rw [h]; decide
  · have h := C4_link_position_clamp ["/howdou", "/questions/42/"] 1 (by norm_num)
    rw [h]; decide

end Howdou
